import Mathlib

/-!
Shallow embedding of the WyzeSecureApi authentication core:
the auth Lambda (src/auth/index.ts), the request authorizer
(src/authorizer/index.ts) and the Cognito custom-auth triggers
(src/cognito-triggers/...). JavaScript strings are modelled as Lean
strings, and the JavaScript string primitives used by the source
(split, trim, startsWith, includes) are given executable structural
models below, matching ECMAScript semantics for the inputs the code
uses (single-character separators, whitespace trimming).
-/

deriving instance DecidableEq for Except

namespace WyzeSecure

/-! ## JavaScript string primitive models -/

/-- Model of ECMAScript `String.prototype.split` with a one-character
separator, on the underlying character list.  `"".split(c) = [""]`,
`"a;".split(";") = ["a", ""]`, as in JavaScript. -/
def jsSplitChar (sep : Char) : List Char → List (List Char)
  | [] => [[]]
  | c :: cs =>
    match jsSplitChar sep cs with
    | [] => [[]]
    | r :: rs => if c = sep then [] :: r :: rs else (c :: r) :: rs

/-- Model of `s.split(sep)` for a one-character separator. -/
def jsSplit (sep : Char) (s : String) : List String :=
  (jsSplitChar sep s.data).map String.mk

/-- Model of ECMAScript `String.prototype.trim`: drop whitespace from
both ends. -/
def jsTrim (s : String) : String :=
  String.mk (((s.data.dropWhile Char.isWhitespace).reverse.dropWhile
    Char.isWhitespace).reverse)

/-- Model of ECMAScript `String.prototype.startsWith`. -/
def jsStartsWith (s p : String) : Bool :=
  p.data.isPrefixOf s.data

/-- Whether `needle` occurs as a contiguous sublist of `hay`. -/
def listHasInfix : List Char → List Char → Bool
  | [], needle => needle.isEmpty
  | h :: t, needle => needle.isPrefixOf (h :: t) || listHasInfix t needle

/-- Model of ECMAScript `String.prototype.includes`. -/
def jsIncludes (s sub : String) : Bool :=
  listHasInfix s.data sub.data

/-- Model of the JavaScript idiom `x || d` on an optional string, where
`undefined` and the empty string are falsy. -/
def jsOrD (o : Option String) (d : String) : String :=
  match o with
  | some s => if s = "" then d else s
  | none => d

/-! ## Cookie codec (src/auth/index.ts, extractCookie / createAuthCookies /
clearAuthCookies) -/

/-- Model of `extractCookie(cookieHeader, name)` from src/auth/index.ts lines
541-548: split the header on `;`, trim each piece, find the first piece
starting with `name=`, and return the part of the piece between the first and second `=`. -/
def extractCookie (cookieHeader : String) (name : String) : Option String :=
  if cookieHeader = "" then none
  else
    let cookies := (jsSplit ';' cookieHeader).map jsTrim
    match cookies.find? (fun c => jsStartsWith c (name ++ "=")) with
    | none => none
    | some cookie => some ((jsSplit '=' cookie).getD 1 "")

/-- Model of `createAuthCookies(idToken, refreshToken)` from src/auth/index.ts
lines 571-579: the two Set-Cookie values are joined with `", "` into a
single string.  `ENVIRONMENT` is the environment variable read by the
module. -/
def createAuthCookies (idToken : String) (refreshToken : String)
    (ENVIRONMENT : String) : String :=
  let isProduction := ENVIRONMENT = "prod"
  let cookieOptions := "HttpOnly; " ++
    (if isProduction then "Secure; " else "") ++ "SameSite=Lax; Path=/"
  ("idToken=" ++ idToken ++ "; " ++ cookieOptions ++ "; Max-Age=3600") ++
    ", " ++
    ("refreshToken=" ++ refreshToken ++ "; " ++ cookieOptions ++
      "; Max-Age=604800")

/-- Model of `clearAuthCookies()` from src/auth/index.ts lines 584-592. -/
def clearAuthCookies (ENVIRONMENT : String) : String :=
  let isProduction := ENVIRONMENT = "prod"
  let cookieOptions := "HttpOnly; " ++
    (if isProduction then "Secure; " else "") ++ "SameSite=Lax; Path=/"
  ("idToken=; " ++ cookieOptions ++ "; Max-Age=0") ++ ", " ++
    ("refreshToken=; " ++ cookieOptions ++ "; Max-Age=0")

/-! ## JWT model (shared by src/auth/index.ts and src/authorizer/index.ts)

A JSON Web Token is modelled by its decoded header and payload.  The
`jsonwebtoken` library functions `jwt.decode` and the signature check
inside `jwt.verify` involve base64/JSON parsing and RSA cryptography,
which are modelled as an abstract decoding function and an abstract
signature oracle carried in a `JwtLib` record; everything `jwt.verify`
does besides the cryptographic signature check (algorithm allow-list,
expiry, issuer) is modelled concretely, in the order the library
performs the checks. -/

/-- The JWT header fields read by the code. -/
structure JwtHeader where
  alg : String
  kid : Option String
deriving Repr, DecidableEq

/-- Structure `CognitoTokenPayload` from src/authorizer/index.ts lines 29-40.
The fields `customRole` and `customCompany` model the JSON claims
`custom:role` and `custom:company`, whose names are not Lean
identifiers. -/
structure CognitoTokenPayload where
  sub : String
  phone_number : Option String := none
  email : Option String := none
  name : Option String := none
  email_verified : Option Bool := none
  phone_number_verified : Option Bool := none
  customRole : Option String := none
  customCompany : Option String := none
  iss : String
  exp : Int
deriving Repr, DecidableEq

/-- Structure `JWK` from src/authorizer/index.ts lines 16-23. -/
structure JWK where
  kid : String
  alg : String
  kty : String
  e : String
  n : String
  use : String
deriving Repr, DecidableEq

/-- Structure `JWKS` from src/authorizer/index.ts lines 25-27. -/
structure JWKS where
  keys : List JWK
deriving Repr, DecidableEq

/-- Abstract model of the `jsonwebtoken` library: `decode` maps a raw
token string to its header and payload (or `none` when the string is
not a parsable JWT), and `verifySig` is the signature oracle, true when
the signature of the token string verifies against the PEM derived from the
given JWK (`jwkToPem`). -/
structure JwtLib where
  decode : String → Option (JwtHeader × CognitoTokenPayload)
  verifySig : String → JWK → Bool

/-- Model of `jwt.verify(token, pem, { algorithms, issuer })` at a
clock reading of `clockTimestamp` seconds.  Following the library
implementation, the checks run in this order: decode, algorithm
allow-list, signature, expiry (`clockTimestamp >= exp` fails), issuer
equality. -/
def JwtLib.verify (lib : JwtLib) (token : String) (key : JWK)
    (algorithms : List String) (issuer : String) (clockTimestamp : Int) :
    Except String CognitoTokenPayload :=
  match lib.decode token with
  | none => .error "invalid token"
  | some (h, p) =>
    if ¬ (h.alg ∈ algorithms) then .error "invalid algorithm"
    else if ¬ lib.verifySig token key then .error "invalid signature"
    else if p.exp ≤ clockTimestamp then .error "jwt expired"
    else if p.iss ≠ issuer then .error "jwt issuer invalid"
    else .ok p

/-! ## Request authorizer (src/authorizer/index.ts) -/

/-- The environment configuration the authorizer module reads
(`AWS_REGION`, `COGNITO_USER_POOL_ID`). -/
structure Config where
  region : String
  userPoolId : String

/-- The expected issuer, as built at src/authorizer/index.ts line 173:
`https://cognito-idp.${COGNITO_REGION}.amazonaws.com/${COGNITO_USER_POOL_ID}`. -/
def Config.issuer (c : Config) : String :=
  "https://cognito-idp." ++ c.region ++ ".amazonaws.com/" ++ c.userPoolId

/-- The module-level mutable JWKS cache (src/authorizer/index.ts lines
52-53): `jwksCache` and `jwksCacheTime` (milliseconds). -/
structure JwksState where
  jwksCache : Option JWKS
  jwksCacheTime : Int
deriving Repr, DecidableEq

/-- Constant `JWKS_CACHE_DURATION` (1 hour in milliseconds). -/
def JWKS_CACHE_DURATION : Int := 3600000

/-- Model of `fetchJwks()` from src/authorizer/index.ts lines 183-201, with the
network made explicit: `provider` is the key set the JWKS endpoint
would currently return, `nowMs` is `Date.now()`.  Returns the key set
used, the new cache state, and the number of network fetches performed
(0 on a warm cache hit, 1 otherwise). -/
def fetchJwks (provider : JWKS) (nowMs : Int) (st : JwksState) :
    JWKS × JwksState × Nat :=
  match st.jwksCache with
  | some c =>
    if nowMs - st.jwksCacheTime < JWKS_CACHE_DURATION then (c, st, 0)
    else (provider, ⟨some provider, nowMs⟩, 1)
  | none => (provider, ⟨some provider, nowMs⟩, 1)

/-- Model of `validateJwt(token)` from src/authorizer/index.ts lines 143-177:
fetch the (cached) JWKS, decode the token header, look up the `kid`,
convert the JWK to PEM, and run `jwt.verify` restricted to RS256 and
the expected issuer.  `nowMs` is `Date.now()`; `jwt.verify` compares
expiry against `Date.now()/1000` seconds.  Returns the verification
result together with the new cache state and the number of JWKS
fetches performed. -/
def validateJwt (cfg : Config) (lib : JwtLib) (provider : JWKS)
    (nowMs : Int) (st : JwksState) (token : String) :
    Except String CognitoTokenPayload × JwksState × Nat :=
  let r := fetchJwks provider nowMs st
  let jwks := r.1
  let st2 := r.2.1
  let fetches := r.2.2
  match lib.decode token with
  | none => (.error "Invalid token format", st2, fetches)
  | some (h, _) =>
    match h.kid with
    | none => (.error "No kid found in token header", st2, fetches)
    | some kid =>
      match jwks.keys.find? (fun key => key.kid = kid) with
      | none => (.error "Public key not found in JWKS", st2, fetches)
      | some jwk =>
        (lib.verify token jwk ["RS256"] cfg.issuer (nowMs / 1000),
          st2, fetches)

/-- The request headers the authorizer reads.  The source only ever
reads `headers.Cookie` and `headers.cookie`; the `Authorization` field
is carried so that claims about bearer-header requests can be stated,
and is demonstrably never consulted. -/
structure Headers where
  Cookie : Option String := none
  cookie : Option String := none
  Authorization : Option String := none

/-- Model of `extractTokenFromCookies(headers)` from src/authorizer/index.ts
lines 114-137. -/
def extractTokenFromCookies (headers : Option Headers) : Option String :=
  match headers with
  | none => none
  | some hs =>
    let cookieHeader := jsOrD hs.Cookie (jsOrD hs.cookie "")
    if cookieHeader = "" then none
    else
      let cookies := (jsSplit ';' cookieHeader).map jsTrim
      match cookies.find? (fun c => jsStartsWith c "idToken=") with
      | none => none
      | some idTokenCookie => some ((jsSplit '=' idTokenCookie).getD 1 "")

/-- Structure `UserContext` from src/authorizer/index.ts lines 42-49; also the
shape of the string-valued context map attached to an Allow decision. -/
structure UserContext where
  userId : String
  phoneNumber : String
  email : String
  name : String
  role : String
  company : String
deriving Repr, DecidableEq

/-- The authorizer result: principal, effect, wildcard resource and the
string-valued context map (`APIGatewayAuthorizerResult` as populated by
`generatePolicy`). -/
structure AuthorizerResult where
  principalId : String
  effect : String
  resource : String
  context : UserContext
deriving Repr, DecidableEq

/-- Model of `generatePolicy(principalId, effect, resource, context)` from
src/authorizer/index.ts lines 207-251.  Each context value is
a JS stringification of the value or the empty string when falsy;
on JavaScript strings that is the identity, written
here with the same falsy test as the source. -/
def generatePolicy (principalId : String) (effect : String)
    (resource : String) (context : UserContext) : AuthorizerResult :=
  let resourceParts := jsSplit '/' resource
  let apiGatewayArnPart := String.intercalate "/" (resourceParts.take 2)
  let wildcardResource := apiGatewayArnPart ++ "/*"
  { principalId := principalId
    effect := effect
    resource := wildcardResource
    context :=
      { userId := jsOrD (some context.userId) ""
        phoneNumber := jsOrD (some context.phoneNumber) ""
        email := jsOrD (some context.email) ""
        name := jsOrD (some context.name) ""
        role := jsOrD (some context.role) ""
        company := jsOrD (some context.company) "" } }

/-- The authorizer event fields the handler reads. -/
structure AuthorizerEvent where
  headers : Option Headers
  methodArn : String

/-- The authorizer `handler` from src/authorizer/index.ts lines 60-108.
Any caught error is rethrown as the generic `Unauthorized` error, which
API Gateway turns into a 401; modelled as `Except.error "Unauthorized"`.
Returns the decision and the new JWKS cache state. -/
def authorizerHandler (cfg : Config) (lib : JwtLib) (provider : JWKS)
    (nowMs : Int) (st : JwksState) (event : AuthorizerEvent) :
    Except String AuthorizerResult × JwksState :=
  match extractTokenFromCookies event.headers with
  | none => (.error "Unauthorized", st)
  | some token =>
    if token = "" then (.error "Unauthorized", st)
    else
      match validateJwt cfg lib provider nowMs st token with
      | (.error _, st2, _) => (.error "Unauthorized", st2)
      | (.ok decoded, st2, _) =>
        let userContext : UserContext :=
          { userId := decoded.sub
            phoneNumber := jsOrD decoded.phone_number ""
            email := jsOrD decoded.email ""
            name := jsOrD decoded.name ""
            role := jsOrD decoded.customRole "user"
            company := jsOrD decoded.customCompany "" }
        (.ok (generatePolicy decoded.sub "Allow" event.methodArn
          userContext), st2)

/-! ## Auth Lambda (src/auth/index.ts) -/

/-- Structure `UserInfo` from src/auth/index.ts lines 43-52. -/
structure UserInfo where
  userId : String
  phoneNumber : String
  email : String
  name : String
  emailVerified : Bool
  phoneVerified : Bool
  role : String
  company : String
deriving Repr, DecidableEq

/-- Model of `parseIdToken(idToken)` from src/auth/index.ts lines 553-566: plain
`jwt.decode` with no verification, then claim projection with JS `||`
defaults.  `none` models the `TypeError` thrown when `jwt.decode`
returns `null` for an unparsable token (the caller catches it). -/
def parseIdToken (decode : String → Option CognitoTokenPayload)
    (idToken : String) : Option UserInfo :=
  match decode idToken with
  | none => none
  | some decoded =>
    some { userId := decoded.sub
           phoneNumber := jsOrD decoded.phone_number ""
           email := jsOrD decoded.email ""
           name := jsOrD decoded.name ""
           emailVerified := decoded.email_verified.getD false
           phoneVerified := decoded.phone_number_verified.getD false
           role := jsOrD decoded.customRole "user"
           company := jsOrD decoded.customCompany "" }

/-- The JSON bodies the auth Lambda returns. -/
inductive RespBody where
  /-- Failure envelope with an error category and optional message. -/
  | errorBody (error : String) (message : Option String)
  /-- Success envelope with message and user (verify-otp and refresh). -/
  | authSuccess (success : Bool) (message : String) (user : UserInfo)
  /-- Success envelope with the user (the /me endpoint). -/
  | meBody (success : Bool) (user : UserInfo)
  /-- Challenge envelope with message, optional session and challenge
  name (send-otp, register, additional-challenge responses). -/
  | challenge (message : String) (session : Option String)
      (challengeName : Option String)
  /-- Simple success envelope with a message (logout). -/
  | simpleMsg (success : Bool) (message : String)
deriving Repr, DecidableEq

/-- An HTTP response: status code, optional `Set-Cookie` header value,
JSON body. -/
structure HttpResponse where
  statusCode : Nat
  setCookie : Option String
  body : RespBody
deriving Repr, DecidableEq

/-- An error thrown by a Cognito SDK call: its `name` (the Cognito
exception class) and `message` (the raw provider detail). -/
structure CognitoError where
  name : String
  message : String
deriving Repr, DecidableEq

/-- Fields of `AuthenticationResult` as read by the code. -/
structure AuthResult where
  IdToken : Option String
  RefreshToken : Option String
deriving Repr, DecidableEq

/-- The fields of `InitiateAuth` / `RespondToAuthChallenge` responses
that the code reads. -/
structure CognitoAuthResponse where
  AuthenticationResult : Option AuthResult := none
  Session : Option String := none
  ChallengeName : Option String := none
deriving Repr, DecidableEq

/-- The request body fields read by the auth endpoints (JSON bodies are
duck-typed in the source; absent fields are `undefined`). -/
structure AuthBody where
  phoneNumber : Option String := none
  name : Option String := none
  otp : Option String := none
  session : Option String := none
deriving Repr, DecidableEq

/-- The E.164 phone test `/^\+[1-9]\d{1,14}$/` from src/auth/index.ts
line 137/253: a `+`, a digit `1`-`9`, then 1 to 14 digits. -/
def isE164 (s : String) : Bool :=
  match s.data with
  | '+' :: d :: ds =>
    (d.isDigit && d ≠ '0') &&
      (1 ≤ ds.length && ds.length ≤ 14 && ds.all Char.isDigit)
  | _ => false

/-- Message of the `TypeError` Node raises when `jwt.decode` returns
`null` and the code reads `.sub` from it; the exact text is
runtime-dependent and only its presence matters to the claims. -/
def nullSubTypeError : String := "Cannot read properties of null"

/-- Model of `sendOtp(body)` from src/auth/index.ts lines 241-307.
`initiateAuth` is the outcome of the `InitiateAuthCommand` provider
call. -/
def sendOtp (initiateAuth : Except CognitoError CognitoAuthResponse)
    (body : AuthBody) : HttpResponse :=
  let phoneNumber := jsOrD body.phoneNumber ""
  if phoneNumber = "" then
    ⟨400, none, .errorBody "Phone number is required" none⟩
  else if ¬ isE164 phoneNumber then
    ⟨400, none, .errorBody
      "Invalid phone number format. Use E.164 format (e.g., +12345678900)"
      none⟩
  else
    match initiateAuth with
    | .ok response =>
      ⟨200, none, .challenge "OTP sent successfully" response.Session
        response.ChallengeName⟩
    | .error e =>
      if e.name = "UserNotFoundException" then
        ⟨404, none, .errorBody "User not found" none⟩
      else
        ⟨500, none, .errorBody "Failed to send OTP" (some e.message)⟩

/-- Model of `verifyOtp(body)` from src/auth/index.ts lines 313-402.
`respond` is the outcome of the `RespondToAuthChallengeCommand` call;
`decode` models `jwt.decode`; `ENVIRONMENT` feeds the cookie helper. -/
def verifyOtp (decode : String → Option CognitoTokenPayload)
    (ENVIRONMENT : String)
    (respond : Except CognitoError CognitoAuthResponse)
    (body : AuthBody) : HttpResponse :=
  let phoneNumber := jsOrD body.phoneNumber ""
  let otp := jsOrD body.otp ""
  let session := jsOrD body.session ""
  if phoneNumber = "" ∨ otp = "" ∨ session = "" then
    ⟨400, none, .errorBody "Phone number, OTP, and session are required"
      none⟩
  else
    match respond with
    | .error e =>
      if e.name = "NotAuthorizedException" ∨
          e.name = "CodeMismatchException" then
        ⟨401, none, .errorBody "Invalid OTP code" none⟩
      else
        ⟨500, none, .errorBody "Failed to verify OTP" (some e.message)⟩
    | .ok response =>
      match response.AuthenticationResult with
      | some ar =>
        let idToken := jsOrD ar.IdToken ""
        let refreshToken := jsOrD ar.RefreshToken ""
        if idToken = "" ∨ refreshToken = "" then
          -- the thrown missing-tokens Error lands in the same catch and
          -- matches neither 401 branch.
          ⟨500, none, .errorBody "Failed to verify OTP"
            (some "Missing tokens in authentication result")⟩
        else
          match parseIdToken decode idToken with
          | none =>
            ⟨500, none, .errorBody "Failed to verify OTP"
              (some nullSubTypeError)⟩
          | some userInfo =>
            ⟨200, some (createAuthCookies idToken refreshToken ENVIRONMENT),
              .authSuccess true "Authentication successful" userInfo⟩
      | none =>
        ⟨200, none, .challenge "Additional challenge required"
          response.Session response.ChallengeName⟩

/-- Model of `registerUser(body)` from src/auth/index.ts lines 125-212.
`signUp` is the `SignUpCommand` outcome, `initiateAuth` the follow-up
`InitiateAuthCommand` outcome; both are covered by the same catch. -/
def registerUser (signUp : Except CognitoError Unit)
    (initiateAuth : Except CognitoError CognitoAuthResponse)
    (body : AuthBody) : HttpResponse :=
  let phoneNumber := jsOrD body.phoneNumber ""
  if phoneNumber = "" then
    ⟨400, none, .errorBody "Phone number is required" none⟩
  else if ¬ isE164 phoneNumber then
    ⟨400, none, .errorBody
      "Invalid phone number format. Use E.164 format (e.g., +12345678900)"
      none⟩
  else
    match signUp with
    | .error e =>
      if e.name = "UsernameExistsException" then
        ⟨409, none, .errorBody "User with this phone number already exists"
          none⟩
      else
        ⟨500, none, .errorBody "Failed to register user" (some e.message)⟩
    | .ok _ =>
      match initiateAuth with
      | .error e =>
        if e.name = "UsernameExistsException" then
          ⟨409, none, .errorBody
            "User with this phone number already exists" none⟩
        else
          ⟨500, none, .errorBody "Failed to register user" (some e.message)⟩
      | .ok response =>
        ⟨200, none, .challenge
          ("Registration initiated. OTP sent to " ++ phoneNumber ++
            ". Please verify OTP to complete registration.")
          response.Session response.ChallengeName⟩

/-- Model of `refreshToken(cookieHeader)` from src/auth/index.ts lines 407-477. -/
def refreshTokenEndpoint (decode : String → Option CognitoTokenPayload)
    (ENVIRONMENT : String)
    (initiateAuth : Except CognitoError CognitoAuthResponse)
    (cookieHeader : String) : HttpResponse :=
  let refreshToken := jsOrD (extractCookie cookieHeader "refreshToken") ""
  if refreshToken = "" then
    ⟨401, none, .errorBody "No refresh token provided" none⟩
  else
    match initiateAuth with
    | .error e =>
      ⟨401, none, .errorBody "Invalid or expired refresh token"
        (some e.message)⟩
    | .ok response =>
      match response.AuthenticationResult with
      | some ar =>
        let idToken := jsOrD ar.IdToken ""
        if idToken = "" then
          -- the thrown missing-ID-token Error lands in the catch.
          ⟨401, none, .errorBody "Invalid or expired refresh token"
            (some "Missing ID token in refresh response")⟩
        else
          match parseIdToken decode idToken with
          | none =>
            ⟨401, none, .errorBody "Invalid or expired refresh token"
              (some nullSubTypeError)⟩
          | some userInfo =>
            ⟨200, some (createAuthCookies idToken refreshToken ENVIRONMENT),
              .authSuccess true "Token refreshed successfully" userInfo⟩
      | none =>
        ⟨401, none, .errorBody "Failed to refresh token" none⟩

/-- Model of `logout()` from src/auth/index.ts lines 482-494. -/
def logout (ENVIRONMENT : String) : HttpResponse :=
  ⟨200, some (clearAuthCookies ENVIRONMENT),
    .simpleMsg true "Logged out successfully"⟩

/-- Model of `getCurrentUser(cookieHeader)` from src/auth/index.ts lines
499-536: extract the `idToken` cookie, `jwt.decode` it with no
verification, and return the user info; 401 when the cookie is missing
or the decode fails. -/
def getCurrentUser (decode : String → Option CognitoTokenPayload)
    (cookieHeader : String) : HttpResponse :=
  let idToken := jsOrD (extractCookie cookieHeader "idToken") ""
  if idToken = "" then
    ⟨401, none, .errorBody "Not authenticated" none⟩
  else
    match parseIdToken decode idToken with
    | none => ⟨401, none, .errorBody "Invalid token" (some nullSubTypeError)⟩
    | some userInfo => ⟨200, none, .meBody true userInfo⟩

/-- The collaborator outcomes and environment the auth `handler`
dispatches with: `jsonParse` models `JSON.parse` on the request body
(its error carries the raw `SyntaxError` message). -/
structure AuthDeps where
  decode : String → Option CognitoTokenPayload
  ENVIRONMENT : String
  jsonParse : String → Except String AuthBody
  signUp : Except CognitoError Unit
  initiateAuth : Except CognitoError CognitoAuthResponse
  respondToAuth : Except CognitoError CognitoAuthResponse

/-- The `APIGatewayProxyEvent` fields the auth handler reads. -/
structure AuthEvent where
  path : Option String := none
  resource : Option String := none
  body : Option String := none
  headers : Option Headers := none

/-- The auth `handler` from src/auth/index.ts lines 76-119: parse the
body, read the cookie header, route by substring match on the path, and
turn any uncaught error into a 500 whose body carries the raw error
message. -/
def authHandler (deps : AuthDeps) (event : AuthEvent) : HttpResponse :=
  let pathOpt : Option String :=
    match event.path with
    | some s => if s = "" then event.resource else some s
    | none => event.resource
  match pathOpt with
  | none =>
    -- `path` is undefined, `path.includes` throws a TypeError caught
    -- by the top-level catch (message is runtime-dependent).
    ⟨500, none, .errorBody "Internal server error"
      (some "Cannot read properties of undefined")⟩
  | some path =>
    let parsedBody : Except String AuthBody :=
      match event.body with
      | none => .ok {}
      | some raw => if raw = "" then .ok {} else deps.jsonParse raw
    match parsedBody with
    | .error msg =>
      ⟨500, none, .errorBody "Internal server error" (some msg)⟩
    | .ok body =>
      let cookies :=
        match event.headers with
        | none => ""
        | some hs => jsOrD hs.Cookie (jsOrD hs.cookie "")
      if jsIncludes path "/register" then
        registerUser deps.signUp deps.initiateAuth body
      else if jsIncludes path "/send-otp" then
        sendOtp deps.initiateAuth body
      else if jsIncludes path "/verify-otp" then
        verifyOtp deps.decode deps.ENVIRONMENT deps.respondToAuth body
      else if jsIncludes path "/refresh" then
        refreshTokenEndpoint deps.decode deps.ENVIRONMENT deps.initiateAuth
          cookies
      else if jsIncludes path "/logout" then
        logout deps.ENVIRONMENT
      else if jsIncludes path "/me" then
        getCurrentUser deps.decode cookies
      else
        ⟨404, none, .errorBody "Endpoint not found" none⟩

/-! ## Cognito custom-auth triggers (src/cognito-triggers/...) -/

/-- One entry of `request.session` in the custom-auth trigger events:
the result of a past challenge round and the metadata the
create-auth-challenge trigger stored for it. -/
structure ChallengeSessionEntry where
  challengeName : String
  challengeResult : Bool
  challengeMetadata : Option String := none
deriving Repr, DecidableEq

/-- The response fields set by the define-auth-challenge trigger. -/
structure DefineResponse where
  issueTokens : Bool
  failAuthentication : Bool
  challengeName : Option String
deriving Repr, DecidableEq

/-- The define-auth-challenge `handler` from
src/cognito-triggers/define-auth-challenge/index.ts lines 16-39:
empty session → issue `CUSTOM_CHALLENGE`; last round answered
correctly → issue tokens; otherwise retry while fewer than 3 rounds
have run, else fail authentication. -/
def defineAuthChallenge (session : List ChallengeSessionEntry) :
    DefineResponse :=
  match session.getLast? with
  | none => ⟨false, false, some "CUSTOM_CHALLENGE"⟩
  | some lastEntry =>
    if lastEntry.challengeResult then ⟨true, false, none⟩
    else if session.length < 3 then ⟨false, false, some "CUSTOM_CHALLENGE"⟩
    else ⟨false, true, none⟩

/-- Model of `generateOTP()` from
src/cognito-triggers/create-auth-challenge/index.ts lines 14-16:
`Math.floor(100000 + Math.random() * 900000).toString()`.  The random
source is modelled by an arbitrary natural `rand`, with `rand % 900000`
standing for `Math.floor(Math.random() * 900000)`, which ranges over
exactly 0..899999. -/
def generateOTP (rand : Nat) : String :=
  Nat.repr (100000 + rand % 900000)

/-- Record `privateChallengeParameters` as set by create-auth-challenge. -/
structure PrivateChallengeParameters where
  otp : String
deriving Repr, DecidableEq

/-- The response fields set by the create-auth-challenge trigger. -/
structure CreateChallengeResponse where
  privateChallengeParameters : PrivateChallengeParameters
  challengeMetadata : String
deriving Repr, DecidableEq

/-- The create-auth-challenge `handler` from
src/cognito-triggers/create-auth-challenge/index.ts lines 26-68: on an
empty session generate a fresh OTP, otherwise reuse
`session[session.length - 1].challengeMetadata || generateOTP()`.  The
SNS delivery attempt does not influence the response (its failure is
swallowed) and is not modelled. -/
def createAuthChallenge (rand : Nat)
    (session : List ChallengeSessionEntry) : CreateChallengeResponse :=
  let otp :=
    match session.getLast? with
    | none => generateOTP rand
    | some previousChallenge =>
      jsOrD previousChallenge.challengeMetadata (generateOTP rand)
  { privateChallengeParameters := ⟨otp⟩, challengeMetadata := otp }

/-- The verify-auth-challenge `handler` from
src/cognito-triggers/verify-auth-challenge/index.js: `answerCorrect`
is strict equality of the submitted answer with the stored OTP. -/
def verifyAuthChallenge
    (privateChallengeParameters : PrivateChallengeParameters)
    (challengeAnswer : String) : Bool :=
  challengeAnswer = privateChallengeParameters.otp

/-! ## Helper lemmas about decimal digit strings

`Nat.repr` (the model of JavaScript `Number.prototype.toString` on
non-negative integers) is related to a structurally recursive digit
function, from which exact length and digit-character facts follow. -/

/-- The decimal digit characters of `n`, most significant first. -/
def decChars (n : Nat) : List Char :=
  if _h : n < 10 then [Nat.digitChar n]
  else decChars (n / 10) ++ [Nat.digitChar (n % 10)]
termination_by n
decreasing_by exact Nat.div_lt_self (by omega) (by omega)

theorem toDigitsCore_eq_decChars :
    ∀ (f n : Nat) (l : List Char), n < f →
      Nat.toDigitsCore 10 f n l = decChars n ++ l := by
  intro f
  induction f with
  | zero => intro n l h; omega
  | succ f ih =>
    intro n l h
    by_cases h10 : n / 10 = 0
    · have hn : n < 10 := by omega
      have hmod : n % 10 = n := by omega
      rw [decChars]
      simp [Nat.toDigitsCore, h10, hn, hmod]
    · have hn : ¬ n < 10 := by omega
      have hlt : n / 10 < f := by omega
      simp only [Nat.toDigitsCore, h10, if_false]
      rw [ih (n / 10) (Nat.digitChar (n % 10) :: l) hlt]
      conv_rhs => rw [decChars]
      simp [hn]

theorem repr_eq_decChars (n : Nat) : Nat.repr n = (decChars n).asString := by
  have h := toDigitsCore_eq_decChars (n + 1) n [] (by omega)
  rw [show Nat.repr n = (Nat.toDigits 10 n).asString from rfl, Nat.toDigits,
    h, List.append_nil]

theorem digitChar_isDigit (d : Nat) (h : d < 10) :
    (Nat.digitChar d).isDigit = true := by
  interval_cases d <;> decide

theorem decChars_length :
    ∀ (k n : Nat), 10 ^ k ≤ n → n < 10 ^ (k + 1) →
      (decChars n).length = k + 1 := by
  intro k
  induction k with
  | zero =>
    intro n h1 h2
    have hn : n < 10 := by simpa using h2
    simp [decChars, hn]
  | succ k ih =>
    intro n h1 h2
    have hge : ¬ n < 10 := by
      have : (10 : Nat) ≤ 10 ^ (k + 1) := by
        calc (10 : Nat) = 10 ^ 1 := by norm_num
        _ ≤ 10 ^ (k + 1) := Nat.pow_le_pow_right (by omega) (by omega)
      omega
    have hb1 : 10 ^ k ≤ n / 10 := by
      rw [Nat.le_div_iff_mul_le (by omega)]
      calc 10 ^ k * 10 = 10 ^ (k + 1) := by ring
      _ ≤ n := h1
    have hb2 : n / 10 < 10 ^ (k + 1) := by
      rw [Nat.div_lt_iff_lt_mul (by omega)]
      calc n < 10 ^ (k + 2) := h2
      _ = 10 ^ (k + 1) * 10 := by ring
    rw [decChars]
    simp only [hge, dite_false]
    simp [ih (n / 10) hb1 hb2]

theorem decChars_all_isDigit (n : Nat) :
    (decChars n).all Char.isDigit = true := by
  induction n using Nat.strong_induction_on with
  | _ n ih =>
    by_cases hn : n < 10
    · rw [decChars]; simp [hn, digitChar_isDigit n hn]
    · rw [decChars]
      simp only [hn, dite_false, List.all_append]
      have h1 := ih (n / 10) (Nat.div_lt_self (by omega) (by omega))
      have h2 : (Nat.digitChar (n % 10)).isDigit = true :=
        digitChar_isDigit (n % 10) (Nat.mod_lt n (by omega))
      simp [h1, h2]

theorem decChars_ne_nil (n : Nat) : decChars n ≠ [] := by
  by_cases hn : n < 10 <;> rw [decChars] <;> simp [hn]

theorem generateOTP_ne_empty (rand : Nat) : generateOTP rand ≠ "" := by
  unfold generateOTP
  rw [repr_eq_decChars]
  intro h
  exact decChars_ne_nil _ (by simpa [List.asString, String.ext_iff] using h)

/-! ## Claims -/

/-- C10: for every value of the random source, `generateOTP` produces
the canonical decimal rendering (no sign, no leading zeros) of an
integer in 100000..999999 — a string of exactly 6 characters, all
decimal digits. -/
theorem C10_generateOTP_is_six_digit_string (rand : Nat) :
    ∃ v : Nat, 100000 ≤ v ∧ v ≤ 999999 ∧ generateOTP rand = Nat.repr v ∧
      (generateOTP rand).length = 6 ∧
      (generateOTP rand).data.all Char.isDigit = true := by
  refine ⟨100000 + rand % 900000, by omega, ?_, rfl, ?_, ?_⟩
  · have := Nat.mod_lt rand (y := 900000) (by omega)
    omega
  · show (Nat.repr (100000 + rand % 900000)).length = 6
    rw [repr_eq_decChars]
    show (decChars (100000 + rand % 900000)).length = 6
    have hm := Nat.mod_lt rand (y := 900000) (by omega)
    have h1 : (10 : Nat) ^ 5 ≤ 100000 + rand % 900000 := by norm_num
    have h2 : 100000 + rand % 900000 < (10 : Nat) ^ (5 + 1) := by
      norm_num
      omega
    have h := decChars_length 5 (100000 + rand % 900000) h1 h2
    omega
  · show (Nat.repr (100000 + rand % 900000)).data.all Char.isDigit = true
    rw [repr_eq_decChars]
    exact decChars_all_isDigit _

/-- C5: with a non-empty session history, create-auth-challenge re-uses
the OTP stored as the `challengeMetadata` stored by the previous round (when the
previous round actually stored one, as every round of this code does),
both as the private answer and as the new metadata; in particular two
invocations before any answer produce the same code. -/
theorem C5_createAuthChallenge_reuses_previous_otp :
    (∀ (rand : Nat) (session : List ChallengeSessionEntry)
        (prev : ChallengeSessionEntry) (m : String),
        session.getLast? = some prev →
        prev.challengeMetadata = some m → m ≠ "" →
        (createAuthChallenge rand session).privateChallengeParameters.otp
            = m ∧
          (createAuthChallenge rand session).challengeMetadata = m) ∧
    (∀ (rand1 rand2 : Nat) (entry : ChallengeSessionEntry),
        entry.challengeMetadata =
          some (createAuthChallenge rand1 []).challengeMetadata →
        (createAuthChallenge rand2 [entry]).privateChallengeParameters.otp
          = (createAuthChallenge rand1 []).privateChallengeParameters.otp) := by
  constructor
  · intro rand session prev m hlast hmeta hne
    simp [createAuthChallenge, hlast, hmeta, jsOrD, hne]
  · intro rand1 rand2 entry hmeta
    have h1 : (createAuthChallenge rand1 []).challengeMetadata
        = generateOTP rand1 := by
      simp [createAuthChallenge]
    have h2 : (createAuthChallenge rand1 []).privateChallengeParameters.otp
        = generateOTP rand1 := by
      simp [createAuthChallenge]
    rw [h2]
    simp [createAuthChallenge, hmeta, h1, jsOrD, generateOTP_ne_empty rand1]

/-- Witness for C5 at concrete inputs: the first invocation on an empty
session generates a code, and a second invocation whose session entry
carries that code as metadata returns the same code. -/
theorem C5_witness :
    (createAuthChallenge 7 [⟨"CUSTOM_CHALLENGE", false, some "123456"⟩]).privateChallengeParameters.otp = "123456" ∧
    (createAuthChallenge 7 [⟨"CUSTOM_CHALLENGE", false, some "123456"⟩]).challengeMetadata = "123456" ∧
    (createAuthChallenge 99 [⟨"CUSTOM_CHALLENGE", false,
        some (createAuthChallenge 3 []).challengeMetadata⟩]).privateChallengeParameters.otp
      = (createAuthChallenge 3 []).privateChallengeParameters.otp := by
  refine ⟨(C5_createAuthChallenge_reuses_previous_otp.1 7
      [⟨"CUSTOM_CHALLENGE", false, some "123456"⟩]
      ⟨"CUSTOM_CHALLENGE", false, some "123456"⟩ "123456"
      (by decide) rfl (by decide)).1,
    (C5_createAuthChallenge_reuses_previous_otp.1 7
      [⟨"CUSTOM_CHALLENGE", false, some "123456"⟩]
      ⟨"CUSTOM_CHALLENGE", false, some "123456"⟩ "123456"
      (by decide) rfl (by decide)).2,
    C5_createAuthChallenge_reuses_previous_otp.2 3 99 _ rfl⟩

/-- C4: the define-auth-challenge state machine issues tokens exactly
when the last round was answered correctly, re-issues `CUSTOM_CHALLENGE`
after an incorrect answer while fewer than 3 rounds have run, and on a
fresh attempt with three consecutive incorrect submissions fails
authentication on the third (no fourth challenge is issued). -/
theorem C4_defineAuthChallenge_state_machine :
    (∀ (hist : List ChallengeSessionEntry) (e : ChallengeSessionEntry),
        e.challengeResult = true →
        defineAuthChallenge (hist ++ [e]) = ⟨true, false, none⟩) ∧
    (∀ (hist : List ChallengeSessionEntry) (e : ChallengeSessionEntry),
        e.challengeResult = false → (hist ++ [e]).length < 3 →
        defineAuthChallenge (hist ++ [e]) =
          ⟨false, false, some "CUSTOM_CHALLENGE"⟩) ∧
    (∀ e1 e2 e3 : ChallengeSessionEntry,
        e1.challengeResult = false → e2.challengeResult = false →
        e3.challengeResult = false →
        defineAuthChallenge [] = ⟨false, false, some "CUSTOM_CHALLENGE"⟩ ∧
        defineAuthChallenge [e1] = ⟨false, false, some "CUSTOM_CHALLENGE"⟩ ∧
        defineAuthChallenge [e1, e2] =
          ⟨false, false, some "CUSTOM_CHALLENGE"⟩ ∧
        defineAuthChallenge [e1, e2, e3] = ⟨false, true, none⟩) := by
  refine ⟨?_, ?_, ?_⟩
  · intro hist e he
    simp [defineAuthChallenge, List.getLast?_concat, he]
  · intro hist e he hlen
    simp only [List.length_append, List.length_cons, List.length_nil] at hlen
    simp [defineAuthChallenge, List.getLast?_concat, he]
    omega
  · intro e1 e2 e3 h1 h2 h3
    refine ⟨by simp [defineAuthChallenge], ?_, ?_, ?_⟩
    · have := List.getLast?_concat (l := ([] : List ChallengeSessionEntry)) (a := e1)
      simp [defineAuthChallenge, h1]
    · show defineAuthChallenge ([e1] ++ [e2]) = _
      simp [defineAuthChallenge, List.getLast?_concat, h2]
    · show defineAuthChallenge ([e1, e2] ++ [e3]) = _
      simp [defineAuthChallenge, List.getLast?_concat, h3]

/-- Witness for C4 at concrete session histories. -/
theorem C4_witness :
    defineAuthChallenge [⟨"CUSTOM_CHALLENGE", false, none⟩,
        ⟨"CUSTOM_CHALLENGE", true, none⟩] = ⟨true, false, none⟩ ∧
    defineAuthChallenge [⟨"CUSTOM_CHALLENGE", false, none⟩] =
      ⟨false, false, some "CUSTOM_CHALLENGE"⟩ ∧
    defineAuthChallenge [⟨"CUSTOM_CHALLENGE", false, none⟩,
        ⟨"CUSTOM_CHALLENGE", false, none⟩, ⟨"CUSTOM_CHALLENGE", false, none⟩]
      = ⟨false, true, none⟩ := by
  refine ⟨?_, ?_, ?_⟩
  · exact C4_defineAuthChallenge_state_machine.1
      [⟨"CUSTOM_CHALLENGE", false, none⟩] ⟨"CUSTOM_CHALLENGE", true, none⟩ rfl
  · exact C4_defineAuthChallenge_state_machine.2.1 []
      ⟨"CUSTOM_CHALLENGE", false, none⟩ rfl (by decide)
  · exact (C4_defineAuthChallenge_state_machine.2.2
      ⟨"CUSTOM_CHALLENGE", false, none⟩ ⟨"CUSTOM_CHALLENGE", false, none⟩
      ⟨"CUSTOM_CHALLENGE", false, none⟩ rfl rfl rfl).2.2.2

/-- C2: the /me endpoint returns 200 with `{success: true, user}` for
any cookie value that `jwt.decode` can parse — the payload `p` is
arbitrary, so in particular an expired or forged (unsigned) payload is
accepted; no signature, issuer or expiry check is involved.  It returns
401 when the `idToken` cookie is absent, and 401 when the value fails
to decode. -/
theorem C2_getCurrentUser_decodes_without_verification
    (decode : String → Option CognitoTokenPayload) (cookieHeader : String) :
    (∀ (t : String) (p : CognitoTokenPayload),
        extractCookie cookieHeader "idToken" = some t → t ≠ "" →
        decode t = some p →
        ∃ u, getCurrentUser decode cookieHeader =
          ⟨200, none, .meBody true u⟩) ∧
    (extractCookie cookieHeader "idToken" = none →
        getCurrentUser decode cookieHeader =
          ⟨401, none, .errorBody "Not authenticated" none⟩) ∧
    (∀ t : String, extractCookie cookieHeader "idToken" = some t →
        decode t = none →
        (getCurrentUser decode cookieHeader).statusCode = 401) := by
  refine ⟨?_, ?_, ?_⟩
  · intro t p hext ht hdec
    refine ⟨⟨p.sub, jsOrD p.phone_number "", jsOrD p.email "",
      jsOrD p.name "", p.email_verified.getD false,
      p.phone_number_verified.getD false, jsOrD p.customRole "user",
      jsOrD p.customCompany ""⟩, ?_⟩
    simp [getCurrentUser, hext, jsOrD, ht, parseIdToken, hdec]
  · intro hext
    simp [getCurrentUser, hext, jsOrD]
  · intro t hext hdec
    by_cases ht : t = ""
    · simp [getCurrentUser, hext, jsOrD, ht]
    · simp [getCurrentUser, hext, jsOrD, ht, parseIdToken, hdec]

/-! Shared concrete fixtures for the witnesses below. -/

/-- A concrete authorizer configuration for witnesses. -/
def cfgW : Config := ⟨"eu-west-1", "pool1"⟩

/-- A concrete RSA signing key for witnesses. -/
def jwkW : JWK := ⟨"k1", "RS256", "RSA", "AQAB", "mod", "sig"⟩

/-- A concrete key set for witnesses. -/
def provW : JWKS := ⟨[jwkW]⟩

/-- Payload with the right issuer for `cfgW` and a far-future expiry. -/
def payloadGoodIss : CognitoTokenPayload :=
  { sub := "user-1", iss := "https://cognito-idp.eu-west-1.amazonaws.com/pool1",
    exp := 99999999999 }

/-- Payload issued by a structurally identical but different pool. -/
def payloadWrongIss : CognitoTokenPayload :=
  { sub := "user-2", iss := "https://cognito-idp.eu-west-1.amazonaws.com/pool2",
    exp := 99999999999 }

/-- A concrete `jsonwebtoken` model for witnesses: `tokA` decodes with
algorithm `none` (claims otherwise valid), `tokB` decodes with RS256
but the wrong issuer, `tokC` is fully valid; every signature
verifies. -/
def libW : JwtLib :=
  { decode := fun s =>
      if s = "tokA" then some (⟨"none", some "k1"⟩, payloadGoodIss)
      else if s = "tokB" then some (⟨"RS256", some "k1"⟩, payloadWrongIss)
      else if s = "tokC" then some (⟨"RS256", some "k1"⟩, payloadGoodIss)
      else none
    verifySig := fun _ _ => true }

/-- C1: if the algorithm in the decoded header is not RS256 (for example
`none`), or the issuer in the payload differs from the configured provider
endpoint, then `validateJwt` fails — whatever the signature oracle,
key set, cache state and clock — and the authorizer handler denies any
request carrying that token. -/
theorem C1_validateJwt_rejects_non_rs256_and_wrong_issuer
    (cfg : Config) (lib : JwtLib) (provider : JWKS) (nowMs : Int)
    (st : JwksState) (token : String) (h : JwtHeader)
    (p : CognitoTokenPayload)
    (hdec : lib.decode token = some (h, p))
    (hbad : h.alg ≠ "RS256" ∨ p.iss ≠ cfg.issuer) :
    (∃ e rest, validateJwt cfg lib provider nowMs st token =
      (.error e, rest)) ∧
    (∀ event : AuthorizerEvent,
        extractTokenFromCookies event.headers = some token → token ≠ "" →
        ∃ st2, authorizerHandler cfg lib provider nowMs st event =
          (.error "Unauthorized", st2)) := by
  have hverify : ∀ jwk : JWK, ∃ e,
      lib.verify token jwk ["RS256"] cfg.issuer (nowMs / 1000) = .error e := by
    intro jwk
    rcases hbad with hb | hb
    · exact ⟨"invalid algorithm", by simp [JwtLib.verify, hdec, hb]⟩
    · by_cases h1 : h.alg = "RS256"
      · by_cases h2 : lib.verifySig token jwk = true
        · by_cases h3 : p.exp ≤ nowMs / 1000
          · exact ⟨"jwt expired", by simp [JwtLib.verify, hdec, h1, h2, h3]⟩
          · exact ⟨"jwt issuer invalid",
              by simp [JwtLib.verify, hdec, h1, h2, h3, hb]⟩
        · exact ⟨"invalid signature", by simp [JwtLib.verify, hdec, h1, h2]⟩
      · exact ⟨"invalid algorithm", by simp [JwtLib.verify, hdec, h1]⟩
  have hval : ∃ e rest, validateJwt cfg lib provider nowMs st token =
      (.error e, rest) := by
    rcases hkid : h.kid with _ | kid
    · exact ⟨"No kid found in token header", (fetchJwks provider nowMs st).2,
        by simp [validateJwt, hdec, hkid]⟩
    · rcases hfind : (fetchJwks provider nowMs st).1.keys.find?
          (fun key => key.kid = kid) with _ | jwk
      · exact ⟨"Public key not found in JWKS", (fetchJwks provider nowMs st).2,
          by simp [validateJwt, hdec, hkid, hfind]⟩
      · obtain ⟨e, he⟩ := hverify jwk
        exact ⟨e, (fetchJwks provider nowMs st).2,
          by simp [validateJwt, hdec, hkid, hfind, he]⟩
  refine ⟨hval, ?_⟩
  intro event hext htok
  obtain ⟨e, rest, hv⟩ := hval
  rcases rest with ⟨st2, k⟩
  exact ⟨st2, by simp [authorizerHandler, hext, htok, hv]⟩

/-- Witness for C1: a token with algorithm `none` and a token with the
wrong issuer are both rejected and denied at concrete inputs. -/
theorem C1_witness :
    (∃ e rest, validateJwt cfgW libW provW 1000 ⟨none, 0⟩ "tokA" =
      (.error e, rest)) ∧
    (∃ e rest, validateJwt cfgW libW provW 1000 ⟨none, 0⟩ "tokB" =
      (.error e, rest)) ∧
    (∃ st2, authorizerHandler cfgW libW provW 1000 ⟨none, 0⟩
        ⟨some ⟨some "idToken=tokA", none, none⟩, "arn:x/stage/GET/path"⟩ =
      (.error "Unauthorized", st2)) := by
  refine ⟨?_, ?_, ?_⟩
  · exact (C1_validateJwt_rejects_non_rs256_and_wrong_issuer cfgW libW provW
      1000 ⟨none, 0⟩ "tokA" ⟨"none", some "k1"⟩ payloadGoodIss (by decide)
      (Or.inl (by decide))).1
  · exact (C1_validateJwt_rejects_non_rs256_and_wrong_issuer cfgW libW provW
      1000 ⟨none, 0⟩ "tokB" ⟨"RS256", some "k1"⟩ payloadWrongIss (by decide)
      (Or.inr (by decide))).1
  · exact (C1_validateJwt_rejects_non_rs256_and_wrong_issuer cfgW libW provW
      1000 ⟨none, 0⟩ "tokA" ⟨"none", some "k1"⟩ payloadGoodIss (by decide)
      (Or.inl (by decide))).2
      ⟨some ⟨some "idToken=tokA", none, none⟩, "arn:x/stage/GET/path"⟩
      (by decide) (by decide)

/-- A decode function for witnesses of the auth Lambda: `tok1` decodes
to an (arbitrary, e.g. long-expired) payload, everything else fails. -/
def decodeW : String → Option CognitoTokenPayload := fun s =>
  if s = "tok1" then some payloadWrongIss else none

/-- Witness for C2: a cookie carrying the decodable `tok1` — whose
payload would fail issuer verification — yields 200 with a user body;
an absent cookie and an undecodable cookie yield 401. -/
theorem C2_witness :
    (∃ u, getCurrentUser decodeW "idToken=tok1" =
      ⟨200, none, .meBody true u⟩) ∧
    getCurrentUser decodeW "refreshToken=zzz" =
      ⟨401, none, .errorBody "Not authenticated" none⟩ ∧
    (getCurrentUser decodeW "idToken=garbage").statusCode = 401 := by
  refine ⟨?_, ?_, ?_⟩
  · exact (C2_getCurrentUser_decodes_without_verification decodeW
      "idToken=tok1").1 "tok1" payloadWrongIss (by decide) (by decide)
      (by decide)
  · exact (C2_getCurrentUser_decodes_without_verification decodeW
      "refreshToken=zzz").2.1 (by decide)
  · exact (C2_getCurrentUser_decodes_without_verification decodeW
      "idToken=garbage").2.2 "garbage" (by decide) (by decide)

/-- A `jsonwebtoken` model whose only token `tokX` carries key id `k2`,
which is not in the `provW` key set (key-rotation situation). -/
def libMissW : JwtLib :=
  { decode := fun s =>
      if s = "tokX" then some (⟨"RS256", some "k2"⟩, payloadGoodIss)
      else none
    verifySig := fun _ _ => true }

/-- Counterexample to C6: with a warm (age 500ms, TTL 1h) cache holding
only key `k1`, validating a token whose `kid` is `k2` fails with
key-not-found after performing 0 fetches — not the 1 refetch the claim
requires — and leaves the cache state untouched. -/
theorem C6_counterexample :
    validateJwt cfgW libMissW provW 1000 ⟨some provW, 500⟩ "tokX" =
      (.error "Public key not found in JWKS", ⟨some provW, 500⟩, 0) := by
  decide

/-- C6 as amended: on a warm-cache key-id miss, `validateJwt` fails
immediately with the key-not-found error, performing no refetch at all
(fetch count 0, cache state unchanged). -/
theorem C6_amended_warm_cache_miss_fails_without_refetch
    (cfg : Config) (lib : JwtLib) (provider : JWKS) (nowMs : Int)
    (c : JWKS) (tcache : Int) (token : String) (h : JwtHeader)
    (p : CognitoTokenPayload) (kid : String)
    (hwarm : nowMs - tcache < JWKS_CACHE_DURATION)
    (hdec : lib.decode token = some (h, p))
    (hkid : h.kid = some kid)
    (hfind : c.keys.find? (fun key => key.kid = kid) = none) :
    validateJwt cfg lib provider nowMs ⟨some c, tcache⟩ token =
      (.error "Public key not found in JWKS", ⟨some c, tcache⟩, 0) := by
  simp [validateJwt, fetchJwks, hwarm, hdec, hkid, hfind]

/-- Witness for the amended C6 at a concrete warm cache and token. -/
theorem C6_witness :
    validateJwt cfgW libMissW provW 2000 ⟨some provW, 100⟩ "tokX" =
      (.error "Public key not found in JWKS", ⟨some provW, 100⟩, 0) :=
  C6_amended_warm_cache_miss_fails_without_refetch cfgW libMissW provW 2000
    provW 100 "tokX" ⟨"RS256", some "k2"⟩ payloadGoodIss "k2" (by decide)
    (by decide) rfl (by decide)

/-- Counterexample to C7: `tokC` is fully valid (`validateJwt` accepts
it), yet a request carrying it only in the bearer `Authorization`
header — with no cookie — is denied: the authorizer has no bearer-header
path at all. -/
theorem C7_counterexample :
    (validateJwt cfgW libW provW 1000 ⟨none, 0⟩ "tokC").1
        = .ok payloadGoodIss ∧
    authorizerHandler cfgW libW provW 1000 ⟨none, 0⟩
        ⟨some ⟨none, none, some "Bearer tokC"⟩, "arn:aws:x:api1/dev/GET/users"⟩
      = (.error "Unauthorized", ⟨none, 0⟩) := by
  constructor
  · decide
  · decide

/-- C7 as amended: the authorizer reads only the `Cookie`/`cookie`
headers; a request whose only credential is a bearer `Authorization`
header is always denied, and the decision never depends on the
`Authorization` header at all. -/
theorem C7_amended_only_cookie_consulted :
    (∀ (cfg : Config) (lib : JwtLib) (provider : JWKS) (nowMs : Int)
        (st : JwksState) (auth : Option String) (arn : String),
        authorizerHandler cfg lib provider nowMs st
          ⟨some ⟨none, none, auth⟩, arn⟩ = (.error "Unauthorized", st)) ∧
    (∀ (cfg : Config) (lib : JwtLib) (provider : JWKS) (nowMs : Int)
        (st : JwksState) (arn : String) (h1 h2 : Headers),
        h1.Cookie = h2.Cookie → h1.cookie = h2.cookie →
        authorizerHandler cfg lib provider nowMs st ⟨some h1, arn⟩ =
          authorizerHandler cfg lib provider nowMs st ⟨some h2, arn⟩) := by
  constructor
  · intro cfg lib provider nowMs st auth arn
    simp [authorizerHandler, extractTokenFromCookies, jsOrD]
  · intro cfg lib provider nowMs st arn h1 h2 hC hc
    rcases h1 with ⟨c1, c2, a1⟩
    rcases h2 with ⟨d1, d2, a2⟩
    simp only at hC hc
    subst hC
    subst hc
    rfl

/-- Witness for the amended C7: a bearer-only request with a valid
token is denied, and adding or removing the `Authorization` header does
not change a cookie-based decision. -/
theorem C7_witness :
    authorizerHandler cfgW libW provW 1000 ⟨none, 0⟩
        ⟨some ⟨none, none, some "Bearer tokC"⟩, "arn:aws:x:api1/dev/GET/u"⟩
      = (.error "Unauthorized", ⟨none, 0⟩) ∧
    authorizerHandler cfgW libW provW 1000 ⟨none, 0⟩
        ⟨some ⟨some "idToken=tokC", none, some "Bearer other"⟩,
          "arn:aws:x:api1/dev/GET/u"⟩
      = authorizerHandler cfgW libW provW 1000 ⟨none, 0⟩
        ⟨some ⟨some "idToken=tokC", none, none⟩, "arn:aws:x:api1/dev/GET/u"⟩ :=
  ⟨C7_amended_only_cookie_consulted.1 cfgW libW provW 1000 ⟨none, 0⟩
      (some "Bearer tokC") "arn:aws:x:api1/dev/GET/u",
    C7_amended_only_cookie_consulted.2 cfgW libW provW 1000 ⟨none, 0⟩
      "arn:aws:x:api1/dev/GET/u" ⟨some "idToken=tokC", none, some "Bearer other"⟩
      ⟨some "idToken=tokC", none, none⟩ rfl rfl⟩

theorem jsOrD_some_empty (s : String) : jsOrD (some s) "" = s := by
  by_cases h : s = "" <;> simp [jsOrD, h]

/-- Counterexample to C9: `tokC` is valid and its payload carries no
`custom:role` claim, yet the context of the Allow decision has
`role = "user"`, not the empty string the claim requires for an absent
claim. -/
theorem C9_counterexample :
    authorizerHandler cfgW libW provW 1000 ⟨none, 0⟩
        ⟨some ⟨some "idToken=tokC", none, none⟩,
          "arn:aws:execute-api:eu-west-1:123:api1/dev/GET/users"⟩
      = (.ok ⟨"user-1", "Allow",
          "arn:aws:execute-api:eu-west-1:123:api1/dev/*",
          ⟨"user-1", "", "", "", "user", ""⟩⟩, ⟨some provW, 1000⟩) ∧
    payloadGoodIss.customRole = none ∧ ("user" : String) ≠ "" := by
  refine ⟨by decide, rfl, by decide⟩

/-- C9 as amended: every Allow decision carries a context map with
exactly the six string-valued keys (`userId`, `phoneNumber`, `email`,
`name`, `role`, `company` — the fields of `UserContext`); absent
`phone_number`, `email`, `name` and `custom:company` claims map to the
empty string, but an absent `custom:role` claim maps to the default
`"user"`. -/
theorem C9_amended_context_map_defaults
    (cfg : Config) (lib : JwtLib) (provider : JWKS) (nowMs : Int)
    (st : JwksState) (event : AuthorizerEvent) (token : String)
    (p : CognitoTokenPayload) (st2 : JwksState) (k : Nat)
    (hext : extractTokenFromCookies event.headers = some token)
    (htok : token ≠ "")
    (hval : validateJwt cfg lib provider nowMs st token = (.ok p, st2, k)) :
    ∃ res, authorizerHandler cfg lib provider nowMs st event =
        (.ok res, st2) ∧
      res.context.userId = p.sub ∧
      res.context.phoneNumber = jsOrD p.phone_number "" ∧
      res.context.email = jsOrD p.email "" ∧
      res.context.name = jsOrD p.name "" ∧
      res.context.role = jsOrD p.customRole "user" ∧
      res.context.company = jsOrD p.customCompany "" ∧
      (p.phone_number = none → res.context.phoneNumber = "") ∧
      (p.email = none → res.context.email = "") ∧
      (p.name = none → res.context.name = "") ∧
      (p.customCompany = none → res.context.company = "") ∧
      (p.customRole = none → res.context.role = "user") := by
  refine ⟨generatePolicy p.sub "Allow" event.methodArn
    ⟨p.sub, jsOrD p.phone_number "", jsOrD p.email "", jsOrD p.name "",
      jsOrD p.customRole "user", jsOrD p.customCompany ""⟩, ?_, ?_⟩
  · simp [authorizerHandler, hext, htok, hval]
  · refine ⟨?_, ?_, ?_, ?_, ?_, ?_, ?_, ?_, ?_, ?_, ?_⟩ <;>
      simp [generatePolicy, jsOrD_some_empty] <;>
      intro h <;> simp [h, jsOrD]

/-- Witness for the amended C9 at the concrete valid token `tokC`,
whose payload omits every optional claim. -/
theorem C9_witness :
    ∃ res, authorizerHandler cfgW libW provW 1000 ⟨none, 0⟩
        ⟨some ⟨some "idToken=tokC", none, none⟩,
          "arn:aws:execute-api:eu-west-1:123:api1/dev/GET/users"⟩
      = (.ok res, ⟨some provW, 1000⟩) ∧
      res.context.userId = payloadGoodIss.sub ∧
      res.context.phoneNumber = jsOrD payloadGoodIss.phone_number "" ∧
      res.context.email = jsOrD payloadGoodIss.email "" ∧
      res.context.name = jsOrD payloadGoodIss.name "" ∧
      res.context.role = jsOrD payloadGoodIss.customRole "user" ∧
      res.context.company = jsOrD payloadGoodIss.customCompany "" ∧
      (payloadGoodIss.phone_number = none → res.context.phoneNumber = "") ∧
      (payloadGoodIss.email = none → res.context.email = "") ∧
      (payloadGoodIss.name = none → res.context.name = "") ∧
      (payloadGoodIss.customCompany = none → res.context.company = "") ∧
      (payloadGoodIss.customRole = none → res.context.role = "user") :=
  C9_amended_context_map_defaults cfgW libW provW 1000 ⟨none, 0⟩
    ⟨some ⟨some "idToken=tokC", none, none⟩,
      "arn:aws:execute-api:eu-west-1:123:api1/dev/GET/users"⟩
    "tokC" payloadGoodIss ⟨some provW, 1000⟩ 1 (by decide) (by decide)
    (by decide)

/-- Collaborator outcomes for the C8 counterexample: the provider call
fails with an unclassified error carrying a raw network detail. -/
def depsErrW : AuthDeps :=
  { decode := decodeW
    ENVIRONMENT := "dev"
    jsonParse := fun _ => .ok ⟨some "+12345678900", none, none, none⟩
    signUp := .ok ()
    initiateAuth := .error
      ⟨"InternalErrorException", "connect ETIMEDOUT 10.20.30.40:443"⟩
    respondToAuth := .error
      ⟨"InternalErrorException", "connect ETIMEDOUT 10.20.30.40:443"⟩ }

/-- Counterexample to C8: an unclassified provider failure in the
send-otp path produces a 500 whose `message` field in the JSON body is the
raw provider exception message, both when calling `sendOtp` directly
and end-to-end through the routing handler. -/
theorem C8_counterexample :
    sendOtp (.error ⟨"InternalErrorException",
        "connect ETIMEDOUT 10.20.30.40:443"⟩)
      ⟨some "+12345678900", none, none, none⟩
      = ⟨500, none, .errorBody "Failed to send OTP"
          (some "connect ETIMEDOUT 10.20.30.40:443")⟩ ∧
    authHandler depsErrW ⟨some "/auth/send-otp", none, some "x", none⟩
      = ⟨500, none, .errorBody "Failed to send OTP"
          (some "connect ETIMEDOUT 10.20.30.40:443")⟩ := by
  constructor
  · decide
  · decide

/-- C8 as amended: provider failures whose error name the code
classifies (`UserNotFoundException`, `UsernameExistsException`,
`NotAuthorizedException`, `CodeMismatchException`) are returned as
category-only bodies with no message field; every other provider
failure — and a top-level request-body parse failure — is returned with
the raw error message embedded in the message field of the body. -/
theorem C8_amended_error_bodies
    (decode : String → Option CognitoTokenPayload) (ENVIRONMENT : String) :
    (∀ (e : CognitoError) (body : AuthBody) (ph : String),
        body.phoneNumber = some ph → ph ≠ "" → isE164 ph = true →
        (e.name = "UserNotFoundException" →
          sendOtp (.error e) body =
            ⟨404, none, .errorBody "User not found" none⟩) ∧
        (e.name ≠ "UserNotFoundException" →
          sendOtp (.error e) body =
            ⟨500, none, .errorBody "Failed to send OTP" (some e.message)⟩)) ∧
    (∀ (e : CognitoError) (body : AuthBody) (ph o s : String),
        body.phoneNumber = some ph → ph ≠ "" →
        body.otp = some o → o ≠ "" →
        body.session = some s → s ≠ "" →
        (e.name = "NotAuthorizedException" ∨
            e.name = "CodeMismatchException" →
          verifyOtp decode ENVIRONMENT (.error e) body =
            ⟨401, none, .errorBody "Invalid OTP code" none⟩) ∧
        (e.name ≠ "NotAuthorizedException" →
          e.name ≠ "CodeMismatchException" →
          verifyOtp decode ENVIRONMENT (.error e) body =
            ⟨500, none, .errorBody "Failed to verify OTP"
              (some e.message)⟩)) ∧
    (∀ (e : CognitoError) (initiateAuth : Except CognitoError
          CognitoAuthResponse) (body : AuthBody) (ph : String),
        body.phoneNumber = some ph → ph ≠ "" → isE164 ph = true →
        (e.name = "UsernameExistsException" →
          registerUser (.error e) initiateAuth body =
            ⟨409, none,
              .errorBody "User with this phone number already exists" none⟩) ∧
        (e.name ≠ "UsernameExistsException" →
          registerUser (.error e) initiateAuth body =
            ⟨500, none, .errorBody "Failed to register user"
              (some e.message)⟩)) ∧
    (∀ (deps : AuthDeps) (pa raw msg : String),
        pa ≠ "" → raw ≠ "" → deps.jsonParse raw = .error msg →
        authHandler deps ⟨some pa, none, some raw, none⟩ =
          ⟨500, none, .errorBody "Internal server error" (some msg)⟩) := by
  refine ⟨?_, ?_, ?_, ?_⟩
  · intro e body ph hph hne he164
    constructor
    · intro hname
      simp [sendOtp, hph, jsOrD, hne, he164, hname]
    · intro hname
      simp [sendOtp, hph, jsOrD, hne, he164, hname]
  · intro e body ph o s hph hphne ho hone hs hsne
    constructor
    · intro hname
      simp [verifyOtp, hph, ho, hs, jsOrD, hphne, hone, hsne, hname]
    · intro hn1 hn2
      simp [verifyOtp, hph, ho, hs, jsOrD, hphne, hone, hsne, hn1, hn2]
  · intro e initiateAuth body ph hph hne he164
    constructor
    · intro hname
      simp [registerUser, hph, jsOrD, hne, he164, hname]
    · intro hname
      simp [registerUser, hph, jsOrD, hne, he164, hname]
  · intro deps pa raw msg hpa hraw hparse
    simp [authHandler, hpa, hraw, hparse]

/-- Collaborator outcomes whose body parse always fails, for the C8
witness. -/
def depsParseErrW : AuthDeps :=
  { decode := decodeW
    ENVIRONMENT := "dev"
    jsonParse := fun _ => .error "Unexpected token x in JSON at position 0"
    signUp := .ok ()
    initiateAuth := .ok {}
    respondToAuth := .ok {} }

/-- Witness for the amended C8: classified failures give clean 404/401
bodies, an unclassified failure gives a 500 carrying the raw message,
and a malformed JSON body gives a 500 carrying the parse error. -/
theorem C8_witness :
    sendOtp (.error ⟨"UserNotFoundException", "raw detail a"⟩)
        ⟨some "+12345678900", none, none, none⟩
      = ⟨404, none, .errorBody "User not found" none⟩ ∧
    verifyOtp decodeW "dev" (.error ⟨"CodeMismatchException", "raw detail b"⟩)
        ⟨some "+12345678900", none, some "111111", some "sess"⟩
      = ⟨401, none, .errorBody "Invalid OTP code" none⟩ ∧
    registerUser (.error ⟨"ThrottlingException", "rate exceeded at shard-7"⟩)
        (.ok {}) ⟨some "+12345678900", none, none, none⟩
      = ⟨500, none, .errorBody "Failed to register user"
          (some "rate exceeded at shard-7")⟩ ∧
    authHandler depsParseErrW ⟨some "/auth/me", none, some "bad json", none⟩
      = ⟨500, none, .errorBody "Internal server error"
          (some "Unexpected token x in JSON at position 0")⟩ := by
  refine ⟨?_, ?_, ?_, ?_⟩
  · exact ((C8_amended_error_bodies decodeW "dev").1
      ⟨"UserNotFoundException", "raw detail a"⟩
      ⟨some "+12345678900", none, none, none⟩ "+12345678900"
      rfl (by decide) (by decide)).1 rfl
  · exact ((C8_amended_error_bodies decodeW "dev").2.1
      ⟨"CodeMismatchException", "raw detail b"⟩
      ⟨some "+12345678900", none, some "111111", some "sess"⟩
      "+12345678900" "111111" "sess" rfl (by decide) rfl (by decide)
      rfl (by decide)).1 (Or.inr rfl)
  · exact ((C8_amended_error_bodies decodeW "dev").2.2.1
      ⟨"ThrottlingException", "rate exceeded at shard-7"⟩ (.ok {})
      ⟨some "+12345678900", none, none, none⟩ "+12345678900"
      rfl (by decide) (by decide)).2 (by decide)
  · exact (C8_amended_error_bodies decodeW "dev").2.2.2 depsParseErrW
      "/auth/me" "bad json" "Unexpected token x in JSON at position 0"
      (by decide) (by decide) rfl

/-! ## Lemmas on the JavaScript string models, used for C3 -/

theorem jsSplitChar_ne_nil (sep : Char) (l : List Char) :
    jsSplitChar sep l ≠ [] := by
  induction l with
  | nil => simp [jsSplitChar]
  | cons c cs ih =>
    rw [jsSplitChar]
    rcases h : jsSplitChar sep cs with _ | ⟨r, rs⟩
    · exact absurd h ih
    · by_cases hc : c = sep <;> simp [hc]

theorem jsSplitChar_not_mem (sep : Char) (l : List Char) (h : sep ∉ l) :
    jsSplitChar sep l = [l] := by
  induction l with
  | nil => rfl
  | cons c cs ih =>
    have hc : c ≠ sep := fun he => h (he ▸ List.mem_cons_self c cs)
    have hcs : sep ∉ cs := fun hm => h (List.mem_cons_of_mem c hm)
    rw [jsSplitChar, ih hcs]
    simp [hc]

theorem jsSplitChar_append_sep (sep : Char) (x y : List Char)
    (h : sep ∉ x) :
    jsSplitChar sep (x ++ sep :: y) = x :: jsSplitChar sep y := by
  induction x with
  | nil =>
    rcases hy : jsSplitChar sep y with _ | ⟨r, rs⟩
    · exact absurd hy (jsSplitChar_ne_nil sep y)
    · simp [jsSplitChar, hy]
  | cons c cs ih =>
    have hc : c ≠ sep := fun he => h (he ▸ List.mem_cons_self c cs)
    have hcs : sep ∉ cs := fun hm => h (List.mem_cons_of_mem c hm)
    rw [List.cons_append, jsSplitChar, ih hcs]
    simp [hc]

theorem jsSplitChar_append2 (sep : Char) (x1 x2 y : List Char)
    (h1 : sep ∉ x1) (h2 : sep ∉ x2) :
    jsSplitChar sep (x1 ++ (x2 ++ sep :: y)) =
      (x1 ++ x2) :: jsSplitChar sep y := by
  rw [← List.append_assoc]
  refine jsSplitChar_append_sep sep (x1 ++ x2) y ?_
  intro hm
  rcases List.mem_append.mp hm with hmm | hmm
  exacts [h1 hmm, h2 hmm]

theorem dropWhile_eq_self_of_head (p : Char → Bool) (l : List Char)
    (h : ∀ c, l.head? = some c → p c = false) : l.dropWhile p = l := by
  cases l with
  | nil => rfl
  | cons a t =>
    rw [List.dropWhile_cons, if_neg]
    simp [h a rfl]

theorem jsTrim_eq_self (s : String)
    (h1 : ∀ c, s.data.head? = some c → c.isWhitespace = false)
    (h2 : ∀ c, s.data.getLast? = some c → c.isWhitespace = false) :
    jsTrim s = s := by
  have e1 : s.data.dropWhile Char.isWhitespace = s.data :=
    dropWhile_eq_self_of_head _ _ h1
  have e2 : s.data.reverse.dropWhile Char.isWhitespace = s.data.reverse := by
    apply dropWhile_eq_self_of_head
    intro c hc
    apply h2
    rwa [List.head?_reverse] at hc
  unfold jsTrim
  rw [e1, e2, List.reverse_reverse]

theorem jsTrim_space_cons (d : List Char)
    (h1 : ∀ c, d.head? = some c → c.isWhitespace = false)
    (h2 : ∀ c, d.getLast? = some c → c.isWhitespace = false) :
    jsTrim ⟨' ' :: d⟩ = ⟨d⟩ := by
  have e1 : (' ' :: d).dropWhile Char.isWhitespace
      = d.dropWhile Char.isWhitespace := by
    rw [List.dropWhile_cons, if_pos (by decide)]
  have e2 : d.dropWhile Char.isWhitespace = d :=
    dropWhile_eq_self_of_head _ _ h1
  have e3 : d.reverse.dropWhile Char.isWhitespace = d.reverse := by
    apply dropWhile_eq_self_of_head
    intro c hc
    apply h2
    rwa [List.head?_reverse] at hc
  unfold jsTrim
  show String.mk ((((' ' :: d).dropWhile Char.isWhitespace).reverse.dropWhile
    Char.isWhitespace).reverse) = _
  rw [e1, e2, e3, List.reverse_reverse]

theorem isPrefixOf_append_self (p r : List Char) :
    p.isPrefixOf (p ++ r) = true := by
  induction p with
  | nil => simp
  | cons a as ih => simp [List.isPrefixOf, ih]

theorem isPrefixOf_head_ne (a b : Char) (x y : List Char) (h : a ≠ b) :
    (a :: x).isPrefixOf (b :: y) = false := by
  simp [List.isPrefixOf, h]

theorem mk_data_self (s : String) : String.mk s.data = s := by
  cases s
  rfl

theorem mk_data_append (s t : String) :
    String.mk (s.data ++ t.data) = s ++ t := by
  cases s
  cases t
  rfl

theorem intercalate_cons_cons (sep x y : List Char)
    (rest : List (List Char)) :
    List.intercalate sep (x :: y :: rest) =
      x ++ sep ++ List.intercalate sep (y :: rest) := by
  simp [List.intercalate, List.intersperse, List.flatten_cons,
    List.append_assoc]

theorem jsSplitChar_intercalate (sep : Char) :
    ∀ segs : List (List Char), segs ≠ [] → (∀ s ∈ segs, sep ∉ s) →
      jsSplitChar sep (List.intercalate [sep] segs) = segs := by
  intro segs
  induction segs with
  | nil => intro h; exact absurd rfl h
  | cons x rest ih =>
    intro _ hmem
    cases rest with
    | nil =>
      have h1 : List.intercalate [sep] [x] = x := by
        simp [List.intercalate, List.intersperse]
      rw [h1, jsSplitChar_not_mem sep x (hmem x (by simp))]
    | cons y rest2 =>
      rw [intercalate_cons_cons]
      have hx : sep ∉ x := hmem x (by simp)
      have hre : x ++ [sep] ++ List.intercalate [sep] (y :: rest2)
          = x ++ sep :: List.intercalate [sep] (y :: rest2) := by
        simp
      rw [hre, jsSplitChar_append_sep sep x _ hx,
        ih (by simp) (fun s hs => hmem s (by simp [hs]))]

/-- The non-production cookie header string decomposes into nine
`;`-separated segments, with the `refreshToken` pair buried inside the
fifth segment because of the `", "` join. -/
theorem createAuthCookies_data (a b env : String) (henv : env ≠ "prod") :
    (createAuthCookies a b env).data =
      List.intercalate [';']
        [("idToken=" ++ a).data, " HttpOnly".data, " SameSite=Lax".data,
         " Path=/".data, (" Max-Age=3600, refreshToken=" ++ b).data,
         " HttpOnly".data, " SameSite=Lax".data, " Path=/".data,
         " Max-Age=604800".data] := by
  have hemp : ("" : String).data = [] := rfl
  simp only [createAuthCookies, henv, if_false, String.data_append, hemp,
    List.append_nil, List.nil_append, List.append_assoc, List.cons_append,
    List.intercalate, List.intersperse, List.flatten_cons, List.flatten_nil]

theorem createAuthCookies_split (a b env : String) (henv : env ≠ "prod")
    (ha : ∀ c ∈ a.data, c ≠ ';') (hb : ∀ c ∈ b.data, c ≠ ';') :
    jsSplit ';' (createAuthCookies a b env) =
      ["idToken=" ++ a, " HttpOnly", " SameSite=Lax", " Path=/",
       " Max-Age=3600, refreshToken=" ++ b, " HttpOnly", " SameSite=Lax",
       " Path=/", " Max-Age=604800"] := by
  have hmem : ∀ s ∈ [("idToken=" ++ a).data, " HttpOnly".data,
      " SameSite=Lax".data, " Path=/".data,
      (" Max-Age=3600, refreshToken=" ++ b).data, " HttpOnly".data,
      " SameSite=Lax".data, " Path=/".data, " Max-Age=604800".data],
      ';' ∉ s := by
    intro s hs
    fin_cases hs
    · rw [String.data_append]
      intro hc
      rcases List.mem_append.mp hc with hcc | hcc
      · exact absurd hcc (by decide)
      · exact ha ';' hcc rfl
    · decide
    · decide
    · decide
    · rw [String.data_append]
      intro hc
      rcases List.mem_append.mp hc with hcc | hcc
      · exact absurd hcc (by decide)
      · exact hb ';' hcc rfl
    · decide
    · decide
    · decide
    · decide
  unfold jsSplit
  rw [createAuthCookies_data a b env henv,
    jsSplitChar_intercalate ';' _ (by simp) hmem]
  simp only [List.map_cons, List.map_nil, mk_data_self]

theorem getLast_append_not_ws (x : String) (ad : List Char)
    (hx : ∀ c, x.data.getLast? = some c → c.isWhitespace = false)
    (hA : ∀ c ∈ ad, c.isWhitespace = false) :
    ∀ c, (x.data ++ ad).getLast? = some c → c.isWhitespace = false := by
  intro c hc
  rw [List.getLast?_append] at hc
  rcases hL : ad.getLast? with _ | d
  · rw [hL, Option.none_or] at hc
    exact hx c hc
  · rw [hL, Option.or_some] at hc
    injection hc with h9
    subst h9
    exact hA d (List.mem_of_getLast?_eq_some hL)

/-- Counterexample to C3: for `';'/'='`-free values `A1` and `B2`, the
`refreshToken` half of the round trip fails outright (extraction yields
absence, because the comma-joined header buries the pair inside the
`Max-Age=3600, refreshToken=B2` segment), and a trailing space in a
value already breaks the `idToken` half, since extraction trims each
segment. -/
theorem C3_counterexample :
    extractCookie (createAuthCookies "A1" "B2" "dev") "refreshToken"
        = none ∧
    extractCookie (createAuthCookies "A1 " "B2" "dev") "idToken"
        = some "A1" := by
  constructor
  · decide
  · decide

/-- C3 as amended: for cookie values free of `;`, `=` and whitespace
(JWTs are), extracting `idToken` from the non-production
`createAuthCookies` string recovers the idToken value, but extracting
`refreshToken` from that same string yields absence: the two
`Set-Cookie` values are joined with `", "` into one string, and after
splitting on `;` the refreshToken pair sits inside a segment starting
with `Max-Age=3600`. -/
theorem C3_amended_round_trip (a b env : String) (henv : env ≠ "prod")
    (ha : ∀ c ∈ a.data, c ≠ ';' ∧ c ≠ '=' ∧ c.isWhitespace = false)
    (hb : ∀ c ∈ b.data, c ≠ ';' ∧ c ≠ '=' ∧ c.isWhitespace = false) :
    extractCookie (createAuthCookies a b env) "idToken" = some a ∧
    extractCookie (createAuthCookies a b env) "refreshToken" = none := by
  have hsplit := createAuthCookies_split a b env henv
    (fun c hc => (ha c hc).1) (fun c hc => (hb c hc).1)
  have hne : createAuthCookies a b env ≠ "" := by
    intro h0
    have h1 := congrArg String.data h0
    rw [createAuthCookies_data a b env henv, intercalate_cons_cons,
      String.data_append] at h1
    simp at h1
  have htrim1 : jsTrim ("idToken=" ++ a) = "idToken=" ++ a := by
    apply jsTrim_eq_self
    · intro c hc
      rw [String.data_append,
        show "idToken=".data = 'i' :: "dToken=".data from by decide,
        List.cons_append, List.head?_cons] at hc
      injection hc with h9
      subst h9
      decide
    · rw [String.data_append]
      exact getLast_append_not_ws "idToken=" a.data (by decide)
        (fun c hc => (ha c hc).2.2)
  have htrim5 : jsTrim (" Max-Age=3600, refreshToken=" ++ b)
      = "Max-Age=3600, refreshToken=" ++ b := by
    have hd : (" Max-Age=3600, refreshToken=" ++ b) = String.mk
        (' ' :: ("Max-Age=3600, refreshToken=".data ++ b.data)) := by
      cases b
      rfl
    rw [hd, jsTrim_space_cons]
    · exact mk_data_append "Max-Age=3600, refreshToken=" b
    · intro c hc
      rw [show "Max-Age=3600, refreshToken=".data
          = 'M' :: "ax-Age=3600, refreshToken=".data from by decide,
        List.cons_append, List.head?_cons] at hc
      injection hc with h9
      subst h9
      decide
    · exact getLast_append_not_ws "Max-Age=3600, refreshToken=" b.data
        (by decide) (fun c hc => (hb c hc).2.2)
  have ht2 : jsTrim " HttpOnly" = "HttpOnly" := by decide
  have ht3 : jsTrim " SameSite=Lax" = "SameSite=Lax" := by decide
  have ht4 : jsTrim " Path=/" = "Path=/" := by decide
  have ht9 : jsTrim " Max-Age=604800" = "Max-Age=604800" := by decide
  constructor
  · have hpos1 : jsStartsWith ("idToken=" ++ a) "idToken=" = true := by
      unfold jsStartsWith
      rw [String.data_append]
      exact isPrefixOf_append_self _ _
    have hval : jsSplit '=' ("idToken=" ++ a) = ["idToken", a] := by
      unfold jsSplit
      rw [String.data_append,
        show "idToken=".data = "idToken".data ++ ['='] from by decide,
        List.append_assoc, List.singleton_append,
        jsSplitChar_append_sep '=' _ _ (by decide),
        jsSplitChar_not_mem '=' a.data (fun hc => (ha '=' hc).2.1 rfl)]
      simp only [List.map_cons, List.map_nil, mk_data_self]
    unfold extractCookie
    rw [if_neg hne, hsplit]
    simp only [List.map_cons, List.map_nil, htrim1, htrim5, ht2, ht3, ht4,
      ht9, show ("idToken" : String) ++ "=" = "idToken=" from by decide]
    rw [show List.find? (fun c => jsStartsWith c "idToken=")
        ["idToken=" ++ a, "HttpOnly", "SameSite=Lax", "Path=/",
         "Max-Age=3600, refreshToken=" ++ b, "HttpOnly", "SameSite=Lax",
         "Path=/", "Max-Age=604800"] = some ("idToken=" ++ a)
      from List.find?_cons_of_pos _ hpos1]
    show some ((jsSplit '=' ("idToken=" ++ a)).getD 1 "") = some a
    rw [hval]
    rfl
  · have hpref1 : jsStartsWith ("idToken=" ++ a) "refreshToken=" = false := by
      unfold jsStartsWith
      rw [String.data_append,
        show "refreshToken=".data = 'r' :: "efreshToken=".data from by decide,
        show "idToken=".data = 'i' :: "dToken=".data from by decide,
        List.cons_append]
      exact isPrefixOf_head_ne 'r' 'i' _ _ (by decide)
    have hpref5 : jsStartsWith ("Max-Age=3600, refreshToken=" ++ b)
        "refreshToken=" = false := by
      unfold jsStartsWith
      rw [String.data_append,
        show "refreshToken=".data = 'r' :: "efreshToken=".data from by decide,
        show "Max-Age=3600, refreshToken=".data
          = 'M' :: "ax-Age=3600, refreshToken=".data from by decide,
        List.cons_append]
      exact isPrefixOf_head_ne 'r' 'M' _ _ (by decide)
    have hlist : ∀ x ∈ ["idToken=" ++ a, "HttpOnly", "SameSite=Lax",
        "Path=/", "Max-Age=3600, refreshToken=" ++ b, "HttpOnly",
        "SameSite=Lax", "Path=/", "Max-Age=604800"],
        ¬ (jsStartsWith x "refreshToken=" = true) := by
      intro x hx
      fin_cases hx
      · simp [hpref1]
      · decide
      · decide
      · decide
      · simp [hpref5]
      · decide
      · decide
      · decide
      · decide
    unfold extractCookie
    rw [if_neg hne, hsplit]
    simp only [List.map_cons, List.map_nil, htrim1, htrim5, ht2, ht3, ht4,
      ht9, show ("refreshToken" : String) ++ "=" = "refreshToken="
        from by decide]
    rw [List.find?_eq_none.mpr hlist]

/-- Witness for the amended C3 at concrete values. -/
theorem C3_amended_witness :
    extractCookie (createAuthCookies "A1" "B2" "dev") "idToken"
        = some "A1" ∧
    extractCookie (createAuthCookies "A1" "B2" "dev") "refreshToken"
        = none :=
  C3_amended_round_trip "A1" "B2" "dev" (by decide) (by decide) (by decide)

end WyzeSecure
